import Mathlib

/-!
Shallow embedding of the simulation engine and the derived-view projector of
`cdo-prototype/src/App.tsx`, together with theorems settling the claims about
them.

Numbers are modelled as exact rationals (`ℚ`).  The only transcendental
operation in the source, `Math.sin((2 * Math.PI * t) / 12)` on line 79, is
abstracted as a function `sinf : ℕ → ℚ` supplied to the engine (its value at
the month index `t` stands for the sine evaluated there); every theorem below
holds for all such functions.  `Math.round` is JavaScript rounding: nearest
integer, halves toward positive infinity, i.e. `⌊x + 1/2⌋`.
-/

/-- JavaScript `Math.round`: nearest integer, halves toward positive
infinity. -/
def jround (x : ℚ) : ℤ := ⌊x + 1/2⌋

/-- `PeopleProperties` of App.tsx lines 26-37. -/
structure PeopleProperties where
  careerOrientation : ℚ
  openness : ℚ
  stress : ℚ
  skills : ℚ
  memory : ℚ
  socialNorms : ℚ
  incomeThousand : ℚ
  savingsThousand : ℚ
  fatigue : ℚ
  illness : ℚ
  deriving DecidableEq, Repr

/-- `PeopleActions` of App.tsx lines 39-53. -/
structure PeopleActions where
  jobSearchProb : ℚ
  hireProb : ℚ
  quitProb : ℚ
  migrateProb : ℚ
  trainingRate : ℚ
  educationRate : ℚ
  retireAge : ℚ
  meetRate : ℚ
  pairCreateRate : ℚ
  marryRate : ℚ
  divorceRate : ℚ
  birthRateAdj : ℚ
  deathRateAdj : ℚ
  deriving DecidableEq, Repr

/-- `OrgActions` of App.tsx lines 55-60. -/
structure OrgActions where
  hireRate : ℚ
  fireRate : ℚ
  wageIndex : ℚ
  hoursIndex : ℚ
  deriving DecidableEq, Repr

/-- `ScenarioParams` of App.tsx lines 7-16.  `months` is the horizon; the
source loop `for (let t = 0; t < months; ...)` runs `max 0 months` times for
integer `months`. -/
structure ScenarioParams where
  months : ℤ
  birthRate : ℚ
  deathRate : ℚ
  migrationNet : ℚ
  employmentShock : ℚ
  peopleProps : PeopleProperties
  peopleActions : PeopleActions
  orgActions : OrgActions
  deriving DecidableEq, Repr

/-- `TimePoint` of App.tsx lines 18-24: one emitted monthly snapshot.  The
four figure fields are `Math.round`ed by the source, hence integers. -/
structure TimePoint where
  t : ℕ
  population : ℤ
  employed : ℤ
  unemployed : ℤ
  migration : ℤ
  deriving DecidableEq, Repr

/-- The state carried across loop iterations of `simulate` (App.tsx lines
65-66): the unrounded population and employed share. -/
structure SimState where
  population : ℚ
  employedShare : ℚ
  deriving DecidableEq, Repr

/-- Initial state of `simulate`: `population = 146_000_000`,
`employedShare = 0.60` (App.tsx lines 65-66). -/
def initState : SimState := { population := 146000000, employedShare := 0.60 }

/-- One iteration of the loop body of `simulate` (App.tsx lines 69-94).
`sinv` is the value `Math.sin((2 * Math.PI * t) / 12)` of this month.
Returns the new carried state together with the pushed snapshot. -/
def step (p : ScenarioParams) (sinv : ℚ) (t : ℕ) (s : SimState) :
    SimState × TimePoint :=
  let effectiveBirthRate := p.birthRate * (1 + p.peopleActions.birthRateAdj + 0.1 * (p.peopleActions.pairCreateRate + p.peopleActions.marryRate) - 0.05 * p.peopleActions.divorceRate)
  let effectiveDeathRate := p.deathRate * (1 + p.peopleActions.deathRateAdj + 0.5 * p.peopleProps.illness)
  let births := (effectiveBirthRate / 12) * s.population
  let deaths := (effectiveDeathRate / 12) * s.population
  let migFactor := 1 + (p.peopleActions.migrateProb - 0.5) * 0.5 + (p.orgActions.wageIndex - 1) * 0.3
  let migration := (p.migrationNet / 12) * migFactor
  let population := s.population + births - deaths + migration
  let shock := p.employmentShock * sinv
  let employedShare1 := s.employedShare
    + shock
    + 0.02 * (p.peopleProps.skills - 0.5)
    + 0.01 * (p.peopleActions.jobSearchProb - 0.5)
    - 0.01 * (p.peopleActions.quitProb - 0.5)
    + 0.01 * (p.orgActions.hireRate - p.orgActions.fireRate)
    + 0.003 * ((p.orgActions.wageIndex - 1) + (p.orgActions.hoursIndex - 1))
    - 0.02 * (p.peopleProps.fatigue + p.peopleProps.illness - 1.0)
  let employedShare2 := employedShare1 - max 0 (65 - p.peopleActions.retireAge) * 0.002
  let employedShare := max 0.45 (min 0.7 employedShare2)
  let employed := population * employedShare
  let unemployed := max 0 (population * 0.68 - employed)
  ({ population := population, employedShare := employedShare },
   { t := t, population := jround population, employed := jround employed,
     unemployed := jround unemployed, migration := jround migration })

/-- The loop of `simulate` (App.tsx line 68): starting at month `t` with
state `s`, run `fuel` more iterations and collect the snapshots. -/
def simulateAux (sinf : ℕ → ℚ) (p : ScenarioParams) :
    ℕ → ℕ → SimState → List TimePoint
  | _, 0, _ => []
  | t, fuel + 1, s =>
    let r := step p (sinf t) t s
    r.2 :: simulateAux sinf p (t + 1) fuel r.1

/-- `simulate` of App.tsx lines 62-98, with the sine abstracted by `sinf`. -/
def simulate (sinf : ℕ → ℚ) (p : ScenarioParams) : List TimePoint :=
  simulateAux sinf p 0 p.months.toNat initState

/-- The carried state just before iteration `n` of the loop of `simulate`
(so `stateAt sinf p 0 = initState`). -/
def stateAt (sinf : ℕ → ℚ) (p : ScenarioParams) : ℕ → SimState
  | 0 => initState
  | n + 1 => (step p (sinf n) n (stateAt sinf p n)).1

/-- A named location of the `cities` list of App.tsx lines 171-183: a name
and a static population weight `pop` (the coordinate plays no role in the
projected attributes). -/
structure City where
  name : String
  pop : ℚ
  deriving DecidableEq, Repr

/-- One feature's `properties` of the `cityCollection` of App.tsx lines
192-198. -/
structure CityFeature where
  name : String
  value : ℤ
  growth : ℤ
  deriving DecidableEq, Repr

/-- `cities.reduce((s, c) => s + c.pop, 0)` of App.tsx line 188. -/
def totalWeight (cities : List City) : ℚ :=
  cities.foldl (fun s c => s + c.pop) 0

/-- The projector `cityCollection` of App.tsx lines 185-202, stripped of the
GeoJSON wrapping: `last = data[data.length - 1]`,
`prev = data[Math.max(0, data.length - 2)]` (truncated subtraction on `ℕ`
equals `Math.max(0, ...)` here), and one feature per city in order.  `none`
models the undefined-property crash of an out-of-range index access, which
happens exactly when `data` is empty. -/
def cityCollection (data : List TimePoint) (cities : List City) :
    Option (List CityFeature) :=
  (data.get? (data.length - 1)).bind fun last =>
    (data.get? (data.length - 2)).map fun prev =>
      let totalBase := totalWeight cities
      let employedDelta := (last.employed : ℚ) - (prev.employed : ℚ)
      cities.map fun c =>
        { name := c.name,
          value := jround ((c.pop / totalBase) * (last.employed : ℚ)),
          growth := jround ((c.pop / totalBase) * employedDelta) }

/-- A JSON sub-document for `PeopleProperties`: any field may be absent. -/
structure PeoplePropsDoc where
  careerOrientation : Option ℚ := none
  openness : Option ℚ := none
  stress : Option ℚ := none
  skills : Option ℚ := none
  memory : Option ℚ := none
  socialNorms : Option ℚ := none
  incomeThousand : Option ℚ := none
  savingsThousand : Option ℚ := none
  fatigue : Option ℚ := none
  illness : Option ℚ := none
  deriving DecidableEq, Repr

/-- A JSON sub-document for `PeopleActions`: any field may be absent. -/
structure PeopleActionsDoc where
  jobSearchProb : Option ℚ := none
  hireProb : Option ℚ := none
  quitProb : Option ℚ := none
  migrateProb : Option ℚ := none
  trainingRate : Option ℚ := none
  educationRate : Option ℚ := none
  retireAge : Option ℚ := none
  meetRate : Option ℚ := none
  pairCreateRate : Option ℚ := none
  marryRate : Option ℚ := none
  divorceRate : Option ℚ := none
  birthRateAdj : Option ℚ := none
  deathRateAdj : Option ℚ := none
  deriving DecidableEq, Repr

/-- A JSON sub-document for `OrgActions`: any field may be absent. -/
structure OrgActionsDoc where
  hireRate : Option ℚ := none
  fireRate : Option ℚ := none
  wageIndex : Option ℚ := none
  hoursIndex : Option ℚ := none
  deriving DecidableEq, Repr

/-- An overlay document (the parsed `policy.json` or the `localStorage`
value): any top-level field, and any grouped sub-object, may be absent. -/
structure ParamsOverlay where
  months : Option ℤ := none
  birthRate : Option ℚ := none
  deathRate : Option ℚ := none
  migrationNet : Option ℚ := none
  employmentShock : Option ℚ := none
  peopleProps : Option PeoplePropsDoc := none
  peopleActions : Option PeopleActionsDoc := none
  orgActions : Option OrgActionsDoc := none
  deriving DecidableEq, Repr

/-- View a fully-populated `PeopleProperties` as a sub-document with every
field present. -/
def PeopleProperties.toDoc (x : PeopleProperties) : PeoplePropsDoc :=
  { careerOrientation := some x.careerOrientation, openness := some x.openness,
    stress := some x.stress, skills := some x.skills, memory := some x.memory,
    socialNorms := some x.socialNorms, incomeThousand := some x.incomeThousand,
    savingsThousand := some x.savingsThousand, fatigue := some x.fatigue,
    illness := some x.illness }

/-- View a fully-populated `PeopleActions` as a sub-document with every
field present. -/
def PeopleActions.toDoc (x : PeopleActions) : PeopleActionsDoc :=
  { jobSearchProb := some x.jobSearchProb, hireProb := some x.hireProb,
    quitProb := some x.quitProb, migrateProb := some x.migrateProb,
    trainingRate := some x.trainingRate, educationRate := some x.educationRate,
    retireAge := some x.retireAge, meetRate := some x.meetRate,
    pairCreateRate := some x.pairCreateRate, marryRate := some x.marryRate,
    divorceRate := some x.divorceRate, birthRateAdj := some x.birthRateAdj,
    deathRateAdj := some x.deathRateAdj }

/-- View a fully-populated `OrgActions` as a sub-document with every field
present. -/
def OrgActions.toDoc (x : OrgActions) : OrgActionsDoc :=
  { hireRate := some x.hireRate, fireRate := some x.fireRate,
    wageIndex := some x.wageIndex, hoursIndex := some x.hoursIndex }

/-- The result of the merge performed by both loader buttons of App.tsx
(lines 306-312 and 322-329): top-level scalar fields are always defined,
while fields inside a grouped sub-object may be absent when the overlay
supplied that sub-object only partially. -/
structure MergedParams where
  months : ℤ
  birthRate : ℚ
  deathRate : ℚ
  migrationNet : ℚ
  employmentShock : ℚ
  peopleProps : PeoplePropsDoc
  peopleActions : PeopleActionsDoc
  orgActions : OrgActionsDoc
  deriving DecidableEq, Repr

/-- The merge `{...p, ...json, peopleProps: json.peopleProps ?? p.peopleProps,
peopleActions: json.peopleActions ?? p.peopleActions, orgActions:
json.orgActions ?? p.orgActions}` of App.tsx lines 306-312 (and identically
lines 322-329): a top-level field present in `json` wins, an absent one falls
back to `p`; a grouped sub-object present in `json` replaces the in-memory
one wholesale, an absent one falls back to the in-memory sub-object. -/
def mergeParams (p : ScenarioParams) (json : ParamsOverlay) : MergedParams :=
  { months := json.months.getD p.months,
    birthRate := json.birthRate.getD p.birthRate,
    deathRate := json.deathRate.getD p.deathRate,
    migrationNet := json.migrationNet.getD p.migrationNet,
    employmentShock := json.employmentShock.getD p.employmentShock,
    peopleProps := json.peopleProps.getD p.peopleProps.toDoc,
    peopleActions := json.peopleActions.getD p.peopleActions.toDoc,
    orgActions := json.orgActions.getD p.orgActions.toDoc }

/-- The default parameter set of App.tsx lines 126-165 (the `useState`
initializer). -/
def defaultParams : ScenarioParams :=
  { months := 36,
    birthRate := 0.011,
    deathRate := 0.013,
    migrationNet := 150000,
    employmentShock := 0.001,
    peopleProps :=
      { careerOrientation := 0.6, openness := 0.5, stress := 0.4,
        skills := 0.6, memory := 0.5, socialNorms := 0.7,
        incomeThousand := 60, savingsThousand := 300,
        fatigue := 0.3, illness := 0.2 },
    peopleActions :=
      { jobSearchProb := 0.5, hireProb := 0.3, quitProb := 0.2,
        migrateProb := 0.2, trainingRate := 0.1, educationRate := 0.05,
        retireAge := 64, meetRate := 0.2, pairCreateRate := 0.15,
        marryRate := 0.12, divorceRate := 0.05, birthRateAdj := 0.0,
        deathRateAdj := 0.0 },
    orgActions :=
      { hireRate := 0.25, fireRate := 0.15, wageIndex := 1.0,
        hoursIndex := 1.0 } }

/-- A sine abstraction that is identically zero, used for concrete test
inputs. -/
def zeroSin : ℕ → ℚ := fun _ => 0

/-- The default parameters restricted to a one-month horizon, used for
concrete test inputs. -/
def oneMonthParams : ScenarioParams := { defaultParams with months := 1 }

/-! ### Helper lemmas about the loop -/

/-- The loop emits exactly one snapshot per iteration. -/
theorem simulateAux_length (sinf : ℕ → ℚ) (p : ScenarioParams) :
    ∀ (fuel t : ℕ) (s : SimState),
      (simulateAux sinf p t fuel s).length = fuel := by
  intro fuel
  induction fuel with
  | zero => intro t s; rfl
  | succ n ih =>
    intro t s
    simp only [simulateAux, List.length_cons, ih]

/-- Indexing the tail of the loop that starts at month `t` in the carried
state `stateAt sinf p t`: entry `i` is the snapshot of the step applied at
month `t + i` to the carried state of that month. -/
theorem simulateAux_get? (sinf : ℕ → ℚ) (p : ScenarioParams) :
    ∀ (i fuel t : ℕ), i < fuel →
      (simulateAux sinf p t fuel (stateAt sinf p t)).get? i =
        some ((step p (sinf (t + i)) (t + i) (stateAt sinf p (t + i))).2) := by
  intro i
  induction i with
  | zero =>
    intro fuel t h
    cases fuel with
    | zero => exact absurd h (Nat.not_lt_zero 0)
    | succ n => simp [simulateAux]
  | succ i ih =>
    intro fuel t h
    cases fuel with
    | zero => exact absurd h (Nat.not_lt_zero _)
    | succ n =>
      have h' : i < n := Nat.lt_of_succ_lt_succ h
      have e1 : (simulateAux sinf p t (n + 1) (stateAt sinf p t)).get? (i + 1) =
          (simulateAux sinf p (t + 1) n (stateAt sinf p (t + 1))).get? i := rfl
      rw [e1, ih n (t + 1) h', Nat.succ_add]
      rfl

/-- The sequence length is the truncation of `months` to `ℕ`. -/
theorem simulate_length (sinf : ℕ → ℚ) (p : ScenarioParams) :
    (simulate sinf p).length = p.months.toNat := by
  simp [simulate, simulateAux_length]

/-- The `i`-th emitted snapshot is the snapshot of the step applied at month
`i` to the carried state of month `i`. -/
theorem simulate_get (sinf : ℕ → ℚ) (p : ScenarioParams) (i : ℕ)
    (h : i < (simulate sinf p).length) :
    (simulate sinf p).get ⟨i, h⟩ =
      (step p (sinf i) i (stateAt sinf p i)).2 := by
  have h' : i < p.months.toNat := by rwa [simulate_length] at h
  have e1 :
      (simulate sinf p).get? i =
        some ((step p (sinf (0 + i)) (0 + i) (stateAt sinf p (0 + i))).2) :=
    simulateAux_get? sinf p i p.months.toNat 0 h'
  rw [Nat.zero_add] at e1
  have e2 : (simulate sinf p).get? i = some ((simulate sinf p).get ⟨i, h⟩) :=
    List.get?_eq_get h
  exact (Option.some.inj (e2.symm.trans e1))

/-- JavaScript rounding of zero is zero. -/
theorem jround_zero : jround 0 = 0 := by norm_num [jround]

/-- JavaScript rounding of a non-negative rational is non-negative. -/
theorem jround_nonneg (x : ℚ) (hx : 0 ≤ x) : 0 ≤ jround x := by
  have : (0 : ℚ) ≤ x + 1/2 := by linarith
  exact Int.le_floor.mpr (by exact_mod_cast this)

/-- Every snapshot the loop emits carries the loop-invariant monthly
migration value. -/
theorem migration_of_mem (sinf : ℕ → ℚ) (p : ScenarioParams) :
    ∀ (fuel t : ℕ) (s : SimState) (tp : TimePoint),
      tp ∈ simulateAux sinf p t fuel s →
      tp.migration =
        jround ((p.migrationNet / 12) *
          (1 + (p.peopleActions.migrateProb - 0.5) * 0.5 +
            (p.orgActions.wageIndex - 1) * 0.3)) := by
  intro fuel
  induction fuel with
  | zero => intro t s tp h; exact absurd h (List.not_mem_nil tp)
  | succ n ih =>
    intro t s tp h
    rcases List.mem_cons.mp h with h1 | h2
    · rw [h1]; rfl
    · exact ih (t + 1) _ tp h2

/-- The default parameters with a negative horizon, used for concrete test
inputs. -/
def negParams : ScenarioParams := { defaultParams with months := -3 }

/-! ### The claims -/

/-- Claim C1: for every parameter set and every month index `t` of the run,
the engine updates its carried population state (initialized to 146,000,000)
by `population += births - deaths + migration` with
`births = (birthRate * (1 + birthRateAdj + 0.1*(pairCreateRate+marryRate)
- 0.05*divorceRate))/12 * population`,
`deaths = (deathRate * (1 + deathRateAdj + 0.5*illness))/12 * population`,
`migration = annualNetMigration/12 * (1 + (migrateProb-0.5)*0.5 +
(wageIndex-1)*0.3)`; the snapshot's population and migration fields are these
values rounded to the nearest whole unit while the unrounded population is
carried to the next step. -/
theorem population_update_per_spec (p : ScenarioParams) (sinf : ℕ → ℚ) (i : ℕ)
    (h : i < (simulate sinf p).length) :
    (stateAt sinf p 0).population = 146000000 ∧
    (stateAt sinf p (i + 1)).population =
      (stateAt sinf p i).population
      + (p.birthRate * (1 + p.peopleActions.birthRateAdj + 0.1 * (p.peopleActions.pairCreateRate + p.peopleActions.marryRate) - 0.05 * p.peopleActions.divorceRate) / 12) * (stateAt sinf p i).population
      - (p.deathRate * (1 + p.peopleActions.deathRateAdj + 0.5 * p.peopleProps.illness) / 12) * (stateAt sinf p i).population
      + (p.migrationNet / 12) * (1 + (p.peopleActions.migrateProb - 0.5) * 0.5 + (p.orgActions.wageIndex - 1) * 0.3) ∧
    ((simulate sinf p).get ⟨i, h⟩).population =
      jround ((stateAt sinf p (i + 1)).population) ∧
    ((simulate sinf p).get ⟨i, h⟩).migration =
      jround ((p.migrationNet / 12) * (1 + (p.peopleActions.migrateProb - 0.5) * 0.5 + (p.orgActions.wageIndex - 1) * 0.3)) := by
  refine ⟨rfl, rfl, ?_, ?_⟩ <;> rw [simulate_get] <;> rfl

/-- Witness for C1: the default parameters with a one-month horizon and the
zero sine abstraction, at month index 0. -/
theorem population_update_per_spec_witness :
    (stateAt zeroSin oneMonthParams 0).population = 146000000 ∧
    (stateAt zeroSin oneMonthParams (0 + 1)).population =
      (stateAt zeroSin oneMonthParams 0).population
      + (oneMonthParams.birthRate * (1 + oneMonthParams.peopleActions.birthRateAdj + 0.1 * (oneMonthParams.peopleActions.pairCreateRate + oneMonthParams.peopleActions.marryRate) - 0.05 * oneMonthParams.peopleActions.divorceRate) / 12) * (stateAt zeroSin oneMonthParams 0).population
      - (oneMonthParams.deathRate * (1 + oneMonthParams.peopleActions.deathRateAdj + 0.5 * oneMonthParams.peopleProps.illness) / 12) * (stateAt zeroSin oneMonthParams 0).population
      + (oneMonthParams.migrationNet / 12) * (1 + (oneMonthParams.peopleActions.migrateProb - 0.5) * 0.5 + (oneMonthParams.orgActions.wageIndex - 1) * 0.3) ∧
    ((simulate zeroSin oneMonthParams).get ⟨0, by decide⟩).population =
      jround ((stateAt zeroSin oneMonthParams (0 + 1)).population) ∧
    ((simulate zeroSin oneMonthParams).get ⟨0, by decide⟩).migration =
      jround ((oneMonthParams.migrationNet / 12) * (1 + (oneMonthParams.peopleActions.migrateProb - 0.5) * 0.5 + (oneMonthParams.orgActions.wageIndex - 1) * 0.3)) :=
  population_update_per_spec oneMonthParams zeroSin 0 (by decide)

/-- Claim C2: for every parameter set and every month index, the engine
updates its carried employed share (initialized to 0.60) by adding exactly
the shock `employmentShockAmplitude * sin(2*pi*t/12)` (here `sinf t`),
`0.02*(skills-0.5)`, `0.01*(jobSearchProb-0.5)`, `-0.01*(quitProb-0.5)`,
`0.01*(hireRate-fireRate)`, `0.003*((wageIndex-1)+(hoursIndex-1))`,
`-0.02*(fatigue+illness-1.0)`, then subtracting
`max(0, 65-retireAge)*0.002`, before clamping. -/
theorem employedShare_update_per_spec (p : ScenarioParams) (sinf : ℕ → ℚ)
    (i : ℕ) :
    (stateAt sinf p 0).employedShare = 0.60 ∧
    (stateAt sinf p (i + 1)).employedShare =
      max 0.45 (min 0.7 (
        (stateAt sinf p i).employedShare
        + p.employmentShock * sinf i
        + 0.02 * (p.peopleProps.skills - 0.5)
        + 0.01 * (p.peopleActions.jobSearchProb - 0.5)
        - 0.01 * (p.peopleActions.quitProb - 0.5)
        + 0.01 * (p.orgActions.hireRate - p.orgActions.fireRate)
        + 0.003 * ((p.orgActions.wageIndex - 1) + (p.orgActions.hoursIndex - 1))
        - 0.02 * (p.peopleProps.fatigue + p.peopleProps.illness - 1.0)
        - max 0 (65 - p.peopleActions.retireAge) * 0.002)) :=
  ⟨rfl, rfl⟩

/-- Claim C3: for every emitted snapshot, the clamped employed share lies in
`[0.45, 0.70]`, the employed field is the rounded product of the new
population and the clamped share, the unemployed field is the rounded
`max(0, population*0.68 - employed)` with the fixed ceiling 0.68, and hence
the unemployed field is never negative. -/
theorem snapshot_bounds_invariant (p : ScenarioParams) (sinf : ℕ → ℚ) (i : ℕ)
    (h : i < (simulate sinf p).length) :
    0.45 ≤ (stateAt sinf p (i + 1)).employedShare ∧
    (stateAt sinf p (i + 1)).employedShare ≤ 0.70 ∧
    ((simulate sinf p).get ⟨i, h⟩).employed =
      jround ((stateAt sinf p (i + 1)).population *
        (stateAt sinf p (i + 1)).employedShare) ∧
    ((simulate sinf p).get ⟨i, h⟩).unemployed =
      jround (max 0 ((stateAt sinf p (i + 1)).population * 0.68 -
        (stateAt sinf p (i + 1)).population *
          (stateAt sinf p (i + 1)).employedShare)) ∧
    0 ≤ ((simulate sinf p).get ⟨i, h⟩).unemployed := by
  refine ⟨le_max_left _ _, ?_, ?_, ?_, ?_⟩
  · exact max_le (by norm_num) ((min_le_left _ _).trans (by norm_num))
  · rw [simulate_get]; rfl
  · rw [simulate_get]; rfl
  · rw [simulate_get]
    exact jround_nonneg _ (le_max_left 0 _)

/-- Witness for C3: the default parameters with a one-month horizon and the
zero sine abstraction, at month index 0. -/
theorem snapshot_bounds_invariant_witness :
    0.45 ≤ (stateAt zeroSin oneMonthParams (0 + 1)).employedShare ∧
    (stateAt zeroSin oneMonthParams (0 + 1)).employedShare ≤ 0.70 ∧
    ((simulate zeroSin oneMonthParams).get ⟨0, by decide⟩).employed =
      jround ((stateAt zeroSin oneMonthParams (0 + 1)).population *
        (stateAt zeroSin oneMonthParams (0 + 1)).employedShare) ∧
    ((simulate zeroSin oneMonthParams).get ⟨0, by decide⟩).unemployed =
      jround (max 0 ((stateAt zeroSin oneMonthParams (0 + 1)).population * 0.68 -
        (stateAt zeroSin oneMonthParams (0 + 1)).population *
          (stateAt zeroSin oneMonthParams (0 + 1)).employedShare)) ∧
    0 ≤ ((simulate zeroSin oneMonthParams).get ⟨0, by decide⟩).unemployed :=
  snapshot_bounds_invariant oneMonthParams zeroSin 0 (by decide)

/-- Claim C4: for every parameter set the emitted sequence has length
`max(0, horizonMonths)`; in particular a zero or negative horizon yields the
empty sequence (and the engine, being a total function, cannot crash
there). -/
theorem simulate_length_max (sinf : ℕ → ℚ) (p : ScenarioParams) :
    ((simulate sinf p).length : ℤ) = max 0 p.months ∧
    (p.months ≤ 0 → simulate sinf p = []) := by
  constructor
  · rw [simulate_length, Int.toNat_eq_max]
    exact max_comm _ _
  · intro hm
    have h0 : p.months.toNat = 0 := Int.toNat_of_nonpos hm
    show simulateAux sinf p 0 p.months.toNat initState = []
    rw [h0]
    rfl

/-- Witness for C4: a negative horizon of -3 months yields the empty
sequence. -/
theorem simulate_length_max_witness :
    (((simulate zeroSin negParams).length : ℤ) = max 0 negParams.months ∧
      (negParams.months ≤ 0 → simulate zeroSin negParams = [])) ∧
    simulate zeroSin negParams = [] :=
  ⟨simulate_length_max zeroSin negParams,
   (simulate_length_max zeroSin negParams).2 (by decide)⟩

/-- Claim C8: the engine is deterministic; two calls with structurally
identical (fieldwise equal) parameter sets and the same sine values produce
structurally identical snapshot sequences. -/
theorem simulate_deterministic (sinf : ℕ → ℚ) (p q : ScenarioParams)
    (h : p.months = q.months ∧ p.birthRate = q.birthRate ∧
      p.deathRate = q.deathRate ∧ p.migrationNet = q.migrationNet ∧
      p.employmentShock = q.employmentShock ∧ p.peopleProps = q.peopleProps ∧
      p.peopleActions = q.peopleActions ∧ p.orgActions = q.orgActions) :
    simulate sinf p = simulate sinf q := by
  obtain ⟨h1, h2, h3, h4, h5, h6, h7, h8⟩ := h
  cases p; cases q
  dsimp only at h1 h2 h3 h4 h5 h6 h7 h8
  subst h1; subst h2; subst h3; subst h4
  subst h5; subst h6; subst h7; subst h8
  rfl

/-- Witness for C8: the default parameters compared with themselves. -/
theorem simulate_deterministic_witness :
    simulate zeroSin defaultParams = simulate zeroSin defaultParams :=
  simulate_deterministic zeroSin defaultParams defaultParams
    ⟨rfl, rfl, rfl, rfl, rfl, rfl, rfl, rfl⟩

/-- Claim C9: the monthly migration depends only on the static parameters,
so every snapshot of one run carries the same rounded migration value,
namely `round(migrationNet/12 * (1 + (migrateProb-0.5)*0.5 +
(wageIndex-1)*0.3))`. -/
theorem migration_constant_across_run (p : ScenarioParams) (sinf : ℕ → ℚ) :
    (∀ tp ∈ simulate sinf p,
      tp.migration =
        jround ((p.migrationNet / 12) *
          (1 + (p.peopleActions.migrateProb - 0.5) * 0.5 +
            (p.orgActions.wageIndex - 1) * 0.3))) ∧
    (∀ tp1 ∈ simulate sinf p, ∀ tp2 ∈ simulate sinf p,
      tp1.migration = tp2.migration) := by
  have key := migration_of_mem sinf p p.months.toNat 0 initState
  exact ⟨key, fun tp1 h1 tp2 h2 => (key tp1 h1).trans (key tp2 h2).symm⟩

/-- Witness for C9: the first snapshot of a one-month default run carries
the loop-invariant migration value. -/
theorem migration_constant_across_run_witness :
    ((simulate zeroSin oneMonthParams).get ⟨0, by decide⟩).migration =
      jround ((oneMonthParams.migrationNet / 12) *
        (1 + (oneMonthParams.peopleActions.migrateProb - 0.5) * 0.5 +
          (oneMonthParams.orgActions.wageIndex - 1) * 0.3)) :=
  (migration_constant_across_run oneMonthParams zeroSin).1 _
    (List.get_mem (simulate zeroSin oneMonthParams) 0 (by decide))

/-- Claim C10: the `t` field of the `i`-th emitted snapshot equals `i`:
snapshots appear in strictly increasing month order with no gaps or
duplicates. -/
theorem snapshot_t_equals_index (p : ScenarioParams) (sinf : ℕ → ℚ) (i : ℕ)
    (h : i < (simulate sinf p).length) :
    ((simulate sinf p).get ⟨i, h⟩).t = i := by
  rw [simulate_get]
  rfl

/-- Witness for C10: the first snapshot of a one-month default run has month
index 0. -/
theorem snapshot_t_equals_index_witness :
    ((simulate zeroSin oneMonthParams).get ⟨0, by decide⟩).t = 0 :=
  snapshot_t_equals_index oneMonthParams zeroSin 0 (by decide)

/-- Claim C5: for every non-empty snapshot sequence and every list of
locations the projector returns exactly one output per input location in the
same order, with `value = round(weight/totalWeight * last.employed)` and
`growth = round(weight/totalWeight * (last.employed - previous.employed))`,
where `previous` is the snapshot at index `length - 2` (for a one-element
sequence that index is 0, i.e. the last snapshot itself). -/
theorem projector_values (data : List TimePoint) (cities : List City)
    (h : data ≠ []) :
    cityCollection data cities =
      some (cities.map fun c =>
        { name := c.name,
          value := jround ((c.pop / totalWeight cities) *
            ((data.getLast h).employed : ℚ)),
          growth := jround ((c.pop / totalWeight cities) *
            (((data.getLast h).employed : ℚ) -
              ((data.getD (data.length - 2) (data.getLast h)).employed : ℚ))) }) := by
  have hlen : 0 < data.length := List.length_pos.mpr h
  have h1 : data.length - 1 < data.length := Nat.sub_lt hlen one_pos
  have h2 : data.length - 2 < data.length := Nat.sub_lt hlen (by norm_num)
  have e1 : data.get? (data.length - 1) = some (data.getLast h) := by
    rw [List.get?_eq_get h1, List.getLast_eq_get]
  have e2 : data.get? (data.length - 2) =
      some (data.getD (data.length - 2) (data.getLast h)) := by
    rw [List.getD_eq_get data (data.getLast h) h2, List.get?_eq_get h2]
  unfold cityCollection
  rw [e1, e2]
  rfl

/-- A first concrete snapshot used by the projector witnesses. -/
def tpA : TimePoint := { t := 0, population := 100, employed := 50, unemployed := 10, migration := 5 }

/-- A second concrete snapshot used by the projector witnesses. -/
def tpB : TimePoint := { t := 1, population := 110, employed := 62, unemployed := 9, migration := 5 }

/-- A concrete location used by the projector witnesses. -/
def cityA : City := { name := "a", pop := 1 }

/-- Another concrete location used by the projector witnesses. -/
def cityB : City := { name := "b", pop := 3 }

/-- Witness for C5: a two-snapshot sequence and two locations. -/
theorem projector_values_witness :
    cityCollection [tpA, tpB] [cityA, cityB] =
      some ([cityA, cityB].map fun c =>
        { name := c.name,
          value := jround ((c.pop / totalWeight [cityA, cityB]) *
            ((([tpA, tpB]).getLast (List.cons_ne_nil tpA [tpB])).employed : ℚ)),
          growth := jround ((c.pop / totalWeight [cityA, cityB]) *
            (((([tpA, tpB]).getLast (List.cons_ne_nil tpA [tpB])).employed : ℚ) -
              ((([tpA, tpB]).getD (([tpA, tpB]).length - 2)
                (([tpA, tpB]).getLast (List.cons_ne_nil tpA [tpB]))).employed : ℚ))) }) :=
  projector_values [tpA, tpB] [cityA, cityB] (List.cons_ne_nil tpA [tpB])

/-- Claim C6: called with a one-element snapshot sequence the projector
treats the previous snapshot as identical to the last one and returns zero
growth for every location. -/
theorem projector_single_snapshot_zero_growth (tp : TimePoint)
    (cities : List City) :
    cityCollection [tp] cities =
      some (cities.map fun c =>
        { name := c.name,
          value := jround ((c.pop / totalWeight cities) * (tp.employed : ℚ)),
          growth := 0 }) := by
  have e : cityCollection [tp] cities =
      some (cities.map fun c =>
        { name := c.name,
          value := jround ((c.pop / totalWeight cities) * (tp.employed : ℚ)),
          growth := jround ((c.pop / totalWeight cities) *
            ((tp.employed : ℚ) - (tp.employed : ℚ))) }) := rfl
  rw [e]
  simp only [sub_self, mul_zero, jround_zero]

/-- An overlay that provides the `peopleProps` sub-object with only its
`skills` field, used to refute claim C7 as stated. -/
def ovSkills : ParamsOverlay :=
  { peopleProps := some { skills := some 0.9 } }

/-- Counterexample to claim C7 as stated: the overlay `ovSkills` provides
the `peopleProps` sub-object with only `skills` set; after the merge the
`fatigue` field inside that sub-object is absent rather than falling back to
the in-memory value 0.3 — the provided sub-object replaces the in-memory one
wholesale, so the merge is not one level deep. -/
theorem merge_deep_fallback_counterexample :
    (mergeParams defaultParams ovSkills).peopleProps.fatigue = none ∧
    (mergeParams defaultParams ovSkills).peopleProps.fatigue ≠
      some defaultParams.peopleProps.fatigue := by
  constructor
  · rfl
  · decide

/-- Claim C7 (amended): the merge is shallow at the top level — any
top-level field unspecified in the overlay falls back to the current
in-memory value — and each of the three grouped sub-objects is chosen one
level deep as a whole: a sub-object absent from the overlay falls back to
the in-memory sub-object, while a sub-object the overlay provides replaces
the in-memory one wholesale (fields missing inside it do not fall back). -/
theorem merge_shallow_wholesale (p : ScenarioParams) (json : ParamsOverlay) :
    (json.months = none → (mergeParams p json).months = p.months) ∧
    (∀ v, json.months = some v → (mergeParams p json).months = v) ∧
    (json.birthRate = none → (mergeParams p json).birthRate = p.birthRate) ∧
    (∀ v, json.birthRate = some v → (mergeParams p json).birthRate = v) ∧
    (json.deathRate = none → (mergeParams p json).deathRate = p.deathRate) ∧
    (∀ v, json.deathRate = some v → (mergeParams p json).deathRate = v) ∧
    (json.migrationNet = none → (mergeParams p json).migrationNet = p.migrationNet) ∧
    (∀ v, json.migrationNet = some v → (mergeParams p json).migrationNet = v) ∧
    (json.employmentShock = none → (mergeParams p json).employmentShock = p.employmentShock) ∧
    (∀ v, json.employmentShock = some v → (mergeParams p json).employmentShock = v) ∧
    (json.peopleProps = none → (mergeParams p json).peopleProps = p.peopleProps.toDoc) ∧
    (∀ d, json.peopleProps = some d → (mergeParams p json).peopleProps = d) ∧
    (json.peopleActions = none → (mergeParams p json).peopleActions = p.peopleActions.toDoc) ∧
    (∀ d, json.peopleActions = some d → (mergeParams p json).peopleActions = d) ∧
    (json.orgActions = none → (mergeParams p json).orgActions = p.orgActions.toDoc) ∧
    (∀ d, json.orgActions = some d → (mergeParams p json).orgActions = d) := by
  refine ⟨?_, ?_, ?_, ?_, ?_, ?_, ?_, ?_, ?_, ?_, ?_, ?_, ?_, ?_, ?_, ?_⟩ <;>
    first
      | (intro hv; simp [mergeParams, hv])
      | (intro v hv; simp [mergeParams, hv])

/-- Witness for the amended C7 at the default parameters and the `ovSkills`
overlay: an absent top-level field falls back, the provided sub-object is
taken wholesale, and an absent sub-object falls back. -/
theorem merge_shallow_wholesale_witness :
    (mergeParams defaultParams ovSkills).months = defaultParams.months ∧
    (mergeParams defaultParams ovSkills).peopleProps =
      { skills := some 0.9 } ∧
    (mergeParams defaultParams ovSkills).orgActions =
      defaultParams.orgActions.toDoc :=
  have h := merge_shallow_wholesale defaultParams ovSkills
  ⟨h.1 rfl,
   h.2.2.2.2.2.2.2.2.2.2.2.1 { skills := some 0.9 } rfl,
   h.2.2.2.2.2.2.2.2.2.2.2.2.2.2.1 rfl⟩
